import Mathlib

/-!
Verification of the wifi-5g-ca-simpy coexistence simulator.

Shallow embedding of the MAC-layer decision rules (src/sim/ca_rules.py),
the node state machine pieces relevant to the contention window and the
adaptive sensing threshold (src/sim/cell.py), the channel capacity
accounting (src/sim/channel.py) and the metrics engine
(src/sim/metrics.py).  Python floats are modelled as exact rationals,
Python ints as Lean integers; Python truncation toward zero is `pyInt`.
-/

namespace Sim

/-- Technology tag of a node: "WiFi" or "NR-U" (cell.py line 21). -/
inductive Tech where
  | WiFi
  | NRU
deriving DecidableEq, Repr

/-- Access category derived from the priority weight (cell.py lines 34-62). -/
inductive AC where
  | AC_VO
  | AC_BE
  | NRU_High
  | NRU_Low
deriving DecidableEq, Repr

/-- Python int() applied to a float: truncation toward zero. -/
def pyInt (q : ℚ) : ℤ :=
  if 0 ≤ q then Int.floor q else Int.ceil q

/-- One entry of a node's neighbor_info table (cell.py broadcast_status,
lines 218-227): the fields read by ca_decision. -/
structure NeighborInfo where
  priority : ℚ
  cw       : ℤ
  last_tx  : ℚ
  tx_count : ℤ
deriving DecidableEq, Repr

/-- Step 3 of ca_decision (ca_rules.py lines 23-28): sum priority·cw over
neighbors whose last transmission is at most 5 ms old. -/
def busyScore (now : ℚ) (infos : List NeighborInfo) : ℚ :=
  infos.foldl
    (fun acc info =>
      if now - info.last_tx ≤ 1 / 200 then acc + info.priority * (info.cw : ℚ)
      else acc)
    0

/-- Step 4 of ca_decision (ca_rules.py lines 31-42): technology and
access-category specific scaling of the sensitivity threshold T.
WiFi best-effort: T·1.1; WiFi voice: T·0.8; NR-U high: T·0.9;
NR-U low: T·1.1. -/
def effectiveT (tech : Tech) (ac : AC) (T : ℚ) : ℚ :=
  match tech with
  | .WiFi => if ac = .AC_BE then T * (11 / 10) else T * (4 / 5)
  | .NRU  => if ac = .NRU_High then T * (9 / 10) else T * (11 / 10)

/-- Result of ca_decision: the returned pair (penalty_slots,
defer_strength) together with the node's contention window after the
call (ca_decision mutates node.cw in steps 5 and 6). -/
structure CaResult where
  penalty : ℤ
  defer   : ℕ
  cw      : ℤ
deriving DecidableEq, Repr

/-- ca_decision (ca_rules.py lines 1-61).  Inputs are the fields the
function reads: the base station's NAV expiry and backoff-event flag,
the simulation clock, the node's technology, access category, AIFS slot
count, current contention window and its CW bounds, the neighbor table,
the threshold argument T, and the value a call to
neighbor_starvation_detected would return (step 7). -/
def ca_decision (navExpiry now : ℚ) (backoffTriggered : Bool)
    (tech : Tech) (ac : AC) (aifs cw cwMin cwMax : ℤ)
    (infos : List NeighborInfo) (T : ℚ) (starvationDefer : ℕ) : CaResult :=
  if navExpiry > now then
    ⟨aifs, 0, cw⟩
  else if backoffTriggered then
    ⟨aifs + cw, 0, cw⟩
  else if busyScore now infos ≤ effectiveT tech ac T then
    ⟨0, 0, cwMin⟩
  else
    let cw2 := min (cw * 2) cwMax
    let penalty :=
      if tech = .WiFi ∧ ac = .AC_BE then aifs + pyInt ((cw2 : ℚ) * (1 / 5))
      else aifs
    ⟨penalty, starvationDefer, cw2⟩

/-- Claim C4 (as stated): for every T_dynamic, the effective threshold is
strictly smaller for the best-effort/low-priority category than for the
voice/high-priority category of the same technology.  Refuted at T = 4:
the WiFi best-effort threshold is 4.4 while the voice threshold is 3.2,
so it is strictly larger, not smaller. -/
theorem C4_counterexample :
    effectiveT Tech.WiFi AC.AC_BE 4 = 22 / 5 ∧
    effectiveT Tech.WiFi AC.AC_VO 4 = 16 / 5 ∧
    ¬ effectiveT Tech.WiFi AC.AC_BE 4 < effectiveT Tech.WiFi AC.AC_VO 4 := by
  refine ⟨by simp [effectiveT]; norm_num, by simp [effectiveT]; norm_num,
    by simp [effectiveT]; norm_num⟩

/-- Claim C4 (amended): for every positive T_dynamic, the effective
threshold used by the sensing decision is strictly LARGER (looser, so
the medium is perceived as busy later) for the best-effort/low-priority
category than for the voice/high-priority category of the same
technology, and no random jitter is added: the effective threshold is a
deterministic function of the technology, the access category and T. -/
theorem C4_effective_threshold_looser (T : ℚ) (hT : 0 < T) :
    effectiveT Tech.WiFi AC.AC_VO T < effectiveT Tech.WiFi AC.AC_BE T ∧
    effectiveT Tech.NRU AC.NRU_High T < effectiveT Tech.NRU AC.NRU_Low T := by
  constructor
  · show T * (4 / 5) < T * (11 / 10)
    nlinarith
  · show T * (9 / 10) < T * (11 / 10)
    nlinarith

/-- Witness for C4 at T = 4. -/
theorem C4_effective_threshold_looser_witness :
    effectiveT Tech.WiFi AC.AC_VO 4 < effectiveT Tech.WiFi AC.AC_BE 4 ∧
    effectiveT Tech.NRU AC.NRU_High 4 < effectiveT Tech.NRU AC.NRU_Low 4 :=
  C4_effective_threshold_looser 4 (by norm_num)

/-- Claim C6: ca_decision honours the priority order of its first two
steps.  If the controller's NAV reservation is active (expiry strictly
later than now) it returns exactly (AIFS slot count, defer 0) with the
contention window untouched, regardless of any other state; otherwise,
if the one-shot fairness/backoff signal is raised, it returns exactly
(AIFS slot count + current CW, defer 0), again with CW untouched. -/
theorem C6_priority_order (navExpiry now : ℚ) (backoffTriggered : Bool)
    (tech : Tech) (ac : AC) (aifs cw cwMin cwMax : ℤ)
    (infos : List NeighborInfo) (T : ℚ) (sd : ℕ) :
    (navExpiry > now →
      ca_decision navExpiry now backoffTriggered tech ac aifs cw cwMin cwMax
        infos T sd = ⟨aifs, 0, cw⟩) ∧
    (¬ navExpiry > now → backoffTriggered = true →
      ca_decision navExpiry now backoffTriggered tech ac aifs cw cwMin cwMax
        infos T sd = ⟨aifs + cw, 0, cw⟩) := by
  constructor
  · intro h
    simp [ca_decision, h]
  · intro h hb
    simp [ca_decision, h, hb]

/-- Witness for C6: a node with AIFS 2 and CW 8; NAV active in the first
scenario, NAV expired but fairness signal raised in the second. -/
theorem C6_priority_order_witness :
    ca_decision 5 3 false Tech.WiFi AC.AC_VO 2 8 3 7 [] 4 0 = ⟨2, 0, 8⟩ ∧
    ca_decision 1 3 true Tech.WiFi AC.AC_VO 2 8 3 7 [] 4 0 = ⟨10, 0, 8⟩ :=
  ⟨(C6_priority_order 5 3 false Tech.WiFi AC.AC_VO 2 8 3 7 [] 4 0).1
      (by norm_num),
   (C6_priority_order 1 3 true Tech.WiFi AC.AC_VO 2 8 3 7 [] 4 0).2
      (by norm_num) rfl⟩

/-! ### Contention-window dynamics (cell.py) -/

/-- The two sets of contention-window bounds in scope for a node: its own
EDCA bounds (cell.py lines 34-62) and its base station's bounds
(channel.py lines 106-107, defaults cw_min = 15, cw_max = 63 at
channel.py line 98). -/
structure CwBounds where
  cwMin   : ℤ
  cwMax   : ℤ
  bsCwMin : ℤ
  bsCwMax : ℤ
deriving DecidableEq, Repr

/-- The assignments to node.cw performed by the MAC loop and the sensing
decision:
dynUp, cell.py line 334 (cw := int(min(cw·1.1, cw_max)));
dynDown, cell.py line 336 (cw := int(max(cw·0.9, cw_min)));
caReset, ca_rules.py line 46 (cw := cw_min);
caDouble, ca_rules.py line 50 (cw := min(cw·2, cw_max));
txSuccess, cell.py line 408 (cw := base_station.cw_min);
txFailBusy, cell.py lines 414 and 435 (cw := min(cw·2, base_station.cw_max)). -/
inductive CwEvent where
  | dynUp
  | dynDown
  | caReset
  | caDouble
  | txSuccess
  | txFailBusy
deriving DecidableEq, Repr

/-- One contention-window update of the node, as listed in CwEvent. -/
def cwStep (b : CwBounds) (cw : ℤ) : CwEvent → ℤ
  | .dynUp => pyInt (min ((cw : ℚ) * (11 / 10)) (b.cwMax : ℚ))
  | .dynDown => pyInt (max ((cw : ℚ) * (9 / 10)) (b.cwMin : ℚ))
  | .caReset => b.cwMin
  | .caDouble => min (cw * 2) b.cwMax
  | .txSuccess => b.bsCwMin
  | .txFailBusy => min (cw * 2) b.bsCwMax

theorem pyInt_ge (L : ℤ) (q : ℚ) (h0 : 0 ≤ L) (h : (L : ℚ) ≤ q) :
    L ≤ pyInt q := by
  have hq : (0 : ℚ) ≤ q := le_trans (by exact_mod_cast h0) h
  simp only [pyInt, if_pos hq]
  exact Int.le_floor.mpr h

theorem pyInt_le (U : ℤ) (q : ℚ) (h : q ≤ (U : ℚ)) : pyInt q ≤ U := by
  by_cases hq : (0 : ℚ) ≤ q
  · simp only [pyInt, if_pos hq]
    have hf := Int.floor_mono h
    rwa [Int.floor_intCast] at hf
  · simp only [pyInt, if_neg hq]
    exact Int.ceil_le.mpr h

theorem cwStep_bounds (b : CwBounds) (cw : ℤ) (e : CwEvent)
    (h1 : 0 ≤ b.cwMin) (h2 : b.cwMin ≤ b.cwMax)
    (h3 : 0 ≤ b.bsCwMin) (h4 : b.bsCwMin ≤ b.bsCwMax)
    (hl : min b.cwMin b.bsCwMin ≤ cw) (hu : cw ≤ max b.cwMax b.bsCwMax) :
    min b.cwMin b.bsCwMin ≤ cwStep b cw e ∧
      cwStep b cw e ≤ max b.cwMax b.bsCwMax := by
  have hL0 : (0 : ℤ) ≤ min b.cwMin b.bsCwMin := le_min h1 h3
  have hcw0 : (0 : ℤ) ≤ cw := le_trans hL0 hl
  have hcw0Q : (0 : ℚ) ≤ (cw : ℚ) := by exact_mod_cast hcw0
  have hLc : min b.cwMin b.bsCwMin ≤ b.cwMax := le_trans (min_le_left _ _) h2
  have hLb : min b.cwMin b.bsCwMin ≤ b.bsCwMax := le_trans (min_le_right _ _) h4
  have hUc : b.cwMin ≤ max b.cwMax b.bsCwMax := le_trans h2 (le_max_left _ _)
  have hUb : b.bsCwMin ≤ max b.cwMax b.bsCwMax := le_trans h4 (le_max_right _ _)
  have hlQ : ((min b.cwMin b.bsCwMin : ℤ) : ℚ) ≤ (cw : ℚ) := by exact_mod_cast hl
  have huQ : (cw : ℚ) ≤ ((max b.cwMax b.bsCwMax : ℤ) : ℚ) := by exact_mod_cast hu
  have h2cw : min b.cwMin b.bsCwMin ≤ cw * 2 := le_trans hl (by linarith)
  cases e with
  | dynUp =>
      constructor
      · apply pyInt_ge _ _ hL0
        apply le_min
        · nlinarith
        · exact_mod_cast hLc
      · apply pyInt_le
        calc min ((cw : ℚ) * (11 / 10)) ((b.cwMax : ℤ) : ℚ)
              ≤ ((b.cwMax : ℤ) : ℚ) := min_le_right _ _
          _ ≤ ((max b.cwMax b.bsCwMax : ℤ) : ℚ) := by
              exact_mod_cast le_max_left _ _
  | dynDown =>
      constructor
      · apply pyInt_ge _ _ hL0
        calc ((min b.cwMin b.bsCwMin : ℤ) : ℚ)
              ≤ ((b.cwMin : ℤ) : ℚ) := by exact_mod_cast min_le_left _ _
          _ ≤ max ((cw : ℚ) * (9 / 10)) ((b.cwMin : ℤ) : ℚ) := le_max_right _ _
      · apply pyInt_le
        apply max_le
        · nlinarith
        · exact_mod_cast hUc
  | caReset => exact ⟨min_le_left _ _, hUc⟩
  | caDouble =>
      exact ⟨le_min h2cw hLc, le_trans (min_le_right _ _) (le_max_left _ _)⟩
  | txSuccess => exact ⟨min_le_right _ _, hUb⟩
  | txFailBusy =>
      exact ⟨le_min h2cw hLb, le_trans (min_le_right _ _) (le_max_right _ _)⟩

/-- Claim C1 (as stated) is false on the code: a WiFi voice node has
cw_min = 3 and cw_max = 7 (cell.py lines 38-39) while its base station
keeps the default bounds cw_min = 15, cw_max = 63 (channel.py line 98;
runner.py lines 39-47 pass neither).  Starting from cw = 5, inside the
node's own bounds, one successful transmission sets cw to the base
station's cw_min = 15 (cell.py line 408), outside the node's own range
[3, 7]. -/
theorem C1_counterexample :
    (3 : ℤ) ≤ 5 ∧ (5 : ℤ) ≤ 7 ∧
    cwStep ⟨3, 7, 15, 63⟩ 5 CwEvent.txSuccess = 15 ∧
    ¬ cwStep ⟨3, 7, 15, 63⟩ 5 CwEvent.txSuccess ≤ 7 := by
  refine ⟨by norm_num, by norm_num, rfl, by decide⟩

/-- Claim C1 (amended): across arbitrarily many success/failure cycles of
the MAC loop and sensing-decision reset/doubling, the node's contention
window stays within the JOINT bounds [min(cw_min, bs.cw_min),
max(cw_max, bs.cw_max)]: the sensing-decision reset/doubling and the
gap-based scaling use the node's own bounds, but the success reset and
the failure/sensed-busy doubling use the base station's bounds, so the
node's own range [cw_min, cw_max] is not an invariant. -/
theorem C1_cw_within_joint_bounds (b : CwBounds) (cw : ℤ)
    (events : List CwEvent)
    (h1 : 0 ≤ b.cwMin) (h2 : b.cwMin ≤ b.cwMax)
    (h3 : 0 ≤ b.bsCwMin) (h4 : b.bsCwMin ≤ b.bsCwMax)
    (hl : min b.cwMin b.bsCwMin ≤ cw) (hu : cw ≤ max b.cwMax b.bsCwMax) :
    min b.cwMin b.bsCwMin ≤ events.foldl (cwStep b) cw ∧
      events.foldl (cwStep b) cw ≤ max b.cwMax b.bsCwMax := by
  induction events generalizing cw with
  | nil => exact ⟨hl, hu⟩
  | cons e rest ih =>
      have h := cwStep_bounds b cw e h1 h2 h3 h4 hl hu
      simpa using ih (cwStep b cw e) h.1 h.2

/-- Witness for C1 (amended) on the WiFi voice configuration of the
counterexample, over a success, a doubling and a downscaling. -/
theorem C1_cw_within_joint_bounds_witness :
    min (3 : ℤ) 15 ≤
      List.foldl (cwStep ⟨3, 7, 15, 63⟩) 5
        [CwEvent.txSuccess, CwEvent.txFailBusy, CwEvent.dynDown] ∧
    List.foldl (cwStep ⟨3, 7, 15, 63⟩) 5
        [CwEvent.txSuccess, CwEvent.txFailBusy, CwEvent.dynDown] ≤
      max (7 : ℤ) 63 :=
  C1_cw_within_joint_bounds ⟨3, 7, 15, 63⟩ 5
    [CwEvent.txSuccess, CwEvent.txFailBusy, CwEvent.dynDown]
    (by norm_num) (by norm_num) (by norm_num) (by norm_num)
    (by norm_num) (by norm_num)

/-! ### Adaptive sensing threshold T_dynamic (cell.py lines 147-212) -/

/-- Average of a node's recorded delays (cell.py line 209). -/
def delaysAvg (delays : List ℚ) : ℚ := delays.sum / (delays.length : ℚ)

/-- The technology/priority branch of update_T_dynamic (cell.py lines
158-199): additive increase clamped at T_max on mild defer,
multiplicative decrease clamped at T_min on full defer, with
per-class constants. -/
def T_dyn_core (tech : Tech) (ac : AC) (Tmin Tmax : ℚ) (deferS : ℕ)
    (T : ℚ) : ℚ :=
  match tech with
  | .WiFi =>
      if ac = .AC_VO then
        if deferS = 1 then min (T + 1 / 2) Tmax else max (T * (4 / 5)) Tmin
      else
        if deferS = 1 then min (T + 4 / 5) Tmax else max (T * (4 / 5)) Tmin
  | .NRU =>
      if ac = .NRU_High then
        if deferS = 1 then min (T + 1 / 2) Tmax else max (T * (19 / 20)) Tmin
      else
        if deferS = 1 then min (T + 1 / 5) Tmax else max (T * (9 / 10)) Tmin

/-- update_T_dynamic (cell.py lines 147-212): early return on
defer_strength 0; the per-class branch; then the extra 10% trim for
low-weight NR-U nodes whose recorded average delay exceeds 0.5 ms
(lines 206-212). -/
def update_T_dynamic (tech : Tech) (ac : AC) (pw Tmin Tmax : ℚ)
    (delays : List ℚ) (deferS : ℕ) (T : ℚ) : ℚ :=
  if deferS = 0 then T
  else if tech = .NRU ∧ pw < 3 / 2 ∧ delays ≠ [] ∧ delaysAvg delays > 1 / 2000
  then max (T_dyn_core tech ac Tmin Tmax deferS T * (9 / 10)) Tmin
  else T_dyn_core tech ac Tmin Tmax deferS T

theorem clampAdd_bounds (T c Tmin Tmax : ℚ) (hc : 0 ≤ c) (h1 : Tmin ≤ Tmax)
    (hl : Tmin ≤ T) :
    Tmin ≤ min (T + c) Tmax ∧ min (T + c) Tmax ≤ Tmax :=
  ⟨le_min (by linarith) h1, min_le_right _ _⟩

theorem clampMul_bounds (T f Tmin Tmax : ℚ) (h0 : 0 ≤ Tmin) (hf0 : 0 ≤ f)
    (hf : f ≤ 1) (h1 : Tmin ≤ Tmax) (hl : Tmin ≤ T) (hu : T ≤ Tmax) :
    Tmin ≤ max (T * f) Tmin ∧ max (T * f) Tmin ≤ Tmax := by
  refine ⟨le_max_right _ _, max_le ?_ h1⟩
  have hT0 : (0 : ℚ) ≤ T := le_trans h0 hl
  nlinarith

theorem T_dyn_core_bounds (tech : Tech) (ac : AC) (Tmin Tmax : ℚ)
    (deferS : ℕ) (T : ℚ) (h0 : 0 ≤ Tmin) (h1 : Tmin ≤ Tmax) (hl : Tmin ≤ T)
    (hu : T ≤ Tmax) :
    Tmin ≤ T_dyn_core tech ac Tmin Tmax deferS T ∧
      T_dyn_core tech ac Tmin Tmax deferS T ≤ Tmax := by
  have A12 := clampAdd_bounds T (1 / 2) Tmin Tmax (by norm_num) h1 hl
  have A45 := clampAdd_bounds T (4 / 5) Tmin Tmax (by norm_num) h1 hl
  have A15 := clampAdd_bounds T (1 / 5) Tmin Tmax (by norm_num) h1 hl
  have M45 := clampMul_bounds T (4 / 5) Tmin Tmax h0 (by norm_num) (by norm_num)
    h1 hl hu
  have M19 := clampMul_bounds T (19 / 20) Tmin Tmax h0 (by norm_num)
    (by norm_num) h1 hl hu
  have M9 := clampMul_bounds T (9 / 10) Tmin Tmax h0 (by norm_num)
    (by norm_num) h1 hl hu
  cases tech <;> simp only [T_dyn_core] <;> split_ifs <;> assumption

theorem update_T_dynamic_bounds (tech : Tech) (ac : AC)
    (pw Tmin Tmax : ℚ) (delays : List ℚ) (deferS : ℕ) (T : ℚ)
    (h0 : 0 ≤ Tmin) (h1 : Tmin ≤ Tmax) (hl : Tmin ≤ T) (hu : T ≤ Tmax) :
    Tmin ≤ update_T_dynamic tech ac pw Tmin Tmax delays deferS T ∧
      update_T_dynamic tech ac pw Tmin Tmax delays deferS T ≤ Tmax := by
  have h := T_dyn_core_bounds tech ac Tmin Tmax deferS T h0 h1 hl hu
  unfold update_T_dynamic
  split_ifs
  · exact ⟨hl, hu⟩
  · exact ⟨le_max_right _ _, max_le (by nlinarith [h.1, h.2]) h1⟩
  · exact h

/-- One call to update_T_dynamic in a node's trace: the defer strength
passed in and the node's recorded delays at that moment. -/
structure TUpdate where
  deferS : ℕ
  delays : List ℚ

/-- Claim C7: for every node, T_min ≤ T_dynamic ≤ T_max initially
(T_min = 2, T_max = 8, initial T_dynamic drawn uniformly from [2, 5],
cell.py lines 66-68) and after every call to update_T_dynamic, for every
defer strength, technology, access category and recorded-delay history:
arbitrarily many adaptation steps never leave [2, 8]. -/
theorem C7_T_dynamic_bounds (tech : Tech) (ac : AC) (pw T0 : ℚ)
    (events : List TUpdate) (hl : 2 ≤ T0) (hu : T0 ≤ 5) :
    (2 ≤ T0 ∧ T0 ≤ 8) ∧
    2 ≤ events.foldl
        (fun T (ev : TUpdate) => update_T_dynamic tech ac pw 2 8 ev.delays ev.deferS T)
        T0 ∧
    events.foldl
        (fun T (ev : TUpdate) => update_T_dynamic tech ac pw 2 8 ev.delays ev.deferS T)
        T0 ≤ 8 := by
  have main : ∀ (l : List TUpdate) (T : ℚ), 2 ≤ T → T ≤ 8 →
      2 ≤ l.foldl
          (fun T (ev : TUpdate) => update_T_dynamic tech ac pw 2 8 ev.delays ev.deferS T)
          T ∧
      l.foldl
          (fun T (ev : TUpdate) => update_T_dynamic tech ac pw 2 8 ev.delays ev.deferS T)
          T ≤ 8 := by
    intro l
    induction l with
    | nil => intro T h2 h8; exact ⟨h2, h8⟩
    | cons e rest ih =>
        intro T h2 h8
        have h := update_T_dynamic_bounds tech ac pw 2 8 e.delays e.deferS T
          (by norm_num) (by norm_num) h2 h8
        simpa using ih _ h.1 h.2
  have h := main events T0 hl (by linarith)
  exact ⟨⟨hl, by linarith⟩, h.1, h.2⟩

/-- Witness for C7: a low-weight NR-U node at T_dynamic = 3 taking a
full-defer step with a slow recorded-delay history, then a mild-defer
step. -/
theorem C7_T_dynamic_bounds_witness :
    ((2 : ℚ) ≤ 3 ∧ (3 : ℚ) ≤ 8) ∧
    2 ≤ List.foldl
        (fun T (ev : TUpdate) => update_T_dynamic Tech.NRU AC.NRU_Low 1 2 8
          ev.delays ev.deferS T)
        3 [⟨2, [1 / 100]⟩, ⟨1, []⟩] ∧
    List.foldl
        (fun T (ev : TUpdate) => update_T_dynamic Tech.NRU AC.NRU_Low 1 2 8
          ev.delays ev.deferS T)
        3 [⟨2, [1 / 100]⟩, ⟨1, []⟩] ≤ 8 :=
  C7_T_dynamic_bounds Tech.NRU AC.NRU_Low 1 3 [⟨2, [1 / 100]⟩, ⟨1, []⟩]
    (by norm_num) (by norm_num)

/-! ### Metrics (metrics.py) -/

/-- First-match lookup with default, modelling Python dict .get(k, d);
dict keys are unique, so the first match is the match. -/
def lookupD {β : Type} (l : List (String × β)) (k : String) (d : β) : β :=
  match l with
  | [] => d
  | (a, b) :: rest => if a = k then b else lookupD rest k d

/-- Key assignment preserving insertion order, modelling d[k] = v. -/
def assocSet {β : Type} (l : List (String × β)) (k : String) (v : β) :
    List (String × β) :=
  match l with
  | [] => [(k, v)]
  | (a, b) :: rest =>
      if a = k then (a, v) :: rest else (a, b) :: assocSet rest k v

/-- defaultdict(int) increment, modelling d[k] += 1. -/
def bump (l : List (String × ℕ)) (k : String) : List (String × ℕ) :=
  match l with
  | [] => [(k, 1)]
  | (a, n) :: rest =>
      if a = k then (a, n + 1) :: rest else (a, n) :: bump rest k

/-- Python `a or b` for an optional float a: b when a is None or 0.0. -/
def pyOr (a : Option ℚ) (b : ℚ) : ℚ :=
  match a with
  | none => b
  | some q => if q = 0 then b else q

/-- The Metrics state (metrics.py lines 16-26).  tp_cursor models the
private attributes _last_tp_time and _last_tx_counts together, which do
not exist until the first throughputs call (the hasattr check at lines
62-64). -/
structure MetricsState where
  tx_times : List (String × List ℚ)
  packet_success : List (String × ℕ)
  packet_loss : List (String × ℕ)
  start_time : ℚ
  stop_time : Option ℚ
  delay_records : List (String × List ℚ)
  last_success_time : List (String × ℚ)
  starvation_threshold : ℚ
  tp_cursor : Option (ℚ × List (String × ℕ))
deriving DecidableEq, Repr

/-- Metrics() (metrics.py lines 16-26) followed by start(t0) (line 38);
runner.py line 22 calls start(0.0) right after construction, so the
started state is the one every later operation sees. -/
def mkMetrics (t0 : ℚ) : MetricsState :=
  { tx_times := [], packet_success := [], packet_loss := [],
    start_time := t0, stop_time := none, delay_records := [],
    last_success_time := [], starvation_threshold := 2, tp_cursor := none }

/-- record_success (metrics.py lines 44-46): bump the success counter and
store `self.stop_time or self.start_time` as the last success time.
The method takes no time argument: the value stored is not the time of
the call. -/
def record_success (m : MetricsState) (name : String) : MetricsState :=
  { m with
    packet_success := bump m.packet_success name,
    last_success_time :=
      assocSet m.last_success_time name (pyOr m.stop_time m.start_time) }

/-- record_tx (metrics.py lines 40-42), as invoked through the runner's
record_occupy wrapper (runner.py lines 29-35). -/
def record_tx (m : MetricsState) (name : String) (t : ℚ) : MetricsState :=
  { m with
    tx_times := assocSet m.tx_times name (lookupD m.tx_times name [] ++ [t]) }

/-- stop (metrics.py lines 52-54). -/
def stop (m : MetricsState) (t1 : ℚ) : MetricsState :=
  { m with stop_time := some t1 }

/-- The starvation-detection block of report (metrics.py lines 136-140):
a cell with at least one recorded success is starved when
stop_time - last_success_time.get(cell, start_time) is at least the
starvation threshold.  report is only called after stop in runner.py
(lines 159-188); a None stop_time would raise in Python and is mapped
to the empty list here. -/
def starved_cells (m : MetricsState) : List String :=
  match m.stop_time with
  | none => []
  | some stopT =>
      (m.packet_success.map Prod.fst).filter
        (fun cell =>
          stopT - lookupD m.last_success_time cell m.start_time ≥
            m.starvation_threshold)

/-- Claim C2: the report's starved set should contain exactly the nodes
whose last success is older than the starvation threshold at stop time.
The claim matches the evident intent (the map is even named
last_success_time), but record_success stores `stop_time or start_time`
instead of the current time, and stop_time is None for every success
recorded while the simulation runs, so the stored value is always
start_time.  Concretely: start at 0, a success recorded at simulation
time 2.9, stop at 3, threshold 2 — the node succeeded 0.1 before the
stop yet is reported starved. -/
theorem C2_starvation_misclassification :
    starved_cells (stop (record_success (mkMetrics 0) "WiFi-1") 3)
      = ["WiFi-1"] ∧
    (3 : ℚ) - 29 / 10 <
      (stop (record_success (mkMetrics 0) "WiFi-1") 3).starvation_threshold := by
  constructor
  · simp only [mkMetrics, record_success, stop, starved_cells, bump, assocSet,
      pyOr, lookupD]
    norm_num
  · simp only [mkMetrics, record_success, stop]
    norm_num

/-- throughputs (metrics.py lines 56-79): per-cell transmissions since
the last call divided by elapsed time (clamped below by 1e-6), with the
cursor pair updated to now and the current counts. -/
def throughputs (m : MetricsState) (now : ℚ) :
    List (String × ℚ) × MetricsState :=
  let lastT :=
    match m.tp_cursor with
    | none => m.start_time
    | some c => c.1
  let lastCounts :=
    match m.tp_cursor with
    | none => m.tx_times.map (fun p => (p.1, 0))
    | some c => c.2
  let delta := max (1 / 1000000) (now - lastT)
  (m.tx_times.map (fun p =>
      (p.1, (((p.2.length : ℤ) - ((lookupD lastCounts p.1 0 : ℕ) : ℤ) : ℤ) : ℚ)
        / delta)),
   { m with
     tp_cursor := some (now, m.tx_times.map (fun p => (p.1, p.2.length))) })

theorem lookupD_map_of_nodup {α β : Type} (l : List (String × α))
    (g : α → β) (d : β) (h : (l.map Prod.fst).Nodup) :
    ∀ q ∈ l, lookupD (l.map (fun r => (r.1, g r.2))) q.1 d = g q.2 := by
  induction l with
  | nil => intro q hq; cases hq
  | cons a rest ih =>
      intro q hq
      simp only [List.map_cons] at h
      have hnd := List.nodup_cons.mp h
      rcases List.mem_cons.mp hq with h1 | h2
      · subst h1
        simp [lookupD]
      · have hne : a.1 ≠ q.1 := by
          intro he
          exact hnd.1 (he ▸ List.mem_map_of_mem Prod.fst h2)
        simp only [List.map_cons, lookupD, if_neg hne]
        exact ih hnd.2 q h2

/-- Claim C8: the instantaneous-throughput computation is not idempotent:
a call advances the per-node cursors, so a second call at the same now
returns 0 for every node in the transmission table (in particular every
node with recorded transmissions) instead of repeating the first call's
result: the returned throughput values are all exactly 0. -/
theorem C8_throughputs_not_idempotent (m : MetricsState) (now : ℚ)
    (hkeys : (m.tx_times.map Prod.fst).Nodup) :
    ((throughputs (throughputs m now).2 now).1).map Prod.snd =
      List.replicate m.tx_times.length 0 := by
  have key : ∀ p ∈ (throughputs (throughputs m now).2 now).1, p.2 = 0 := by
    intro p hp
    simp only [throughputs] at hp
    rcases List.mem_map.mp hp with ⟨q, hq, hfq⟩
    have hlook := lookupD_map_of_nodup m.tx_times (fun l => l.length)
      0 hkeys q hq
    subst hfq
    have hlook2 : lookupD (m.tx_times.map (fun p => (p.1, p.2.length))) q.1 0
        = q.2.length := by simpa using hlook
    simp [hlook2]
  have hlen : (((throughputs (throughputs m now).2 now).1).map Prod.snd).length
      = m.tx_times.length := by
    simp [throughputs]
  rw [← hlen]
  refine List.eq_replicate_length.mpr ?_
  intro b hb
  rcases List.mem_map.mp hb with ⟨p, hp, rfl⟩
  exact key p hp

/-- Witness for C8: a single node with one recorded transmission at time
1/2, polled twice at time 1: the second poll reports throughput 0. -/
theorem C8_throughputs_not_idempotent_witness :
    (((record_tx (mkMetrics 0) "WiFi-1" (1 / 2)).tx_times.map
        Prod.fst).Nodup) ∧
    ((throughputs
        (throughputs (record_tx (mkMetrics 0) "WiFi-1" (1 / 2)) 1).2 1).1).map
        Prod.snd =
      List.replicate (record_tx (mkMetrics 0) "WiFi-1" (1 / 2)).tx_times.length
        0 :=
  ⟨by simp [record_tx, mkMetrics, assocSet, lookupD],
   C8_throughputs_not_idempotent (record_tx (mkMetrics 0) "WiFi-1" (1 / 2)) 1
     (by simp [record_tx, mkMetrics, assocSet, lookupD])⟩

/-- Jain's fairness index over a throughput vector, as computed by
final_fairness (metrics.py lines 98-106) and by fairness_by_priority's
inner jain (lines 180-186): 0 on the empty vector, (Σx)²/(N·Σx²) when
Σx² > 0, else 0. -/
def jain (tp : List ℚ) : ℚ :=
  if tp = [] then 0
  else
    if 0 < (tp.map (fun x => x * x)).sum then
      tp.sum * tp.sum / ((tp.length : ℚ) * (tp.map (fun x => x * x)).sum)
    else 0

/-- Claim C5: for every throughput vector of N ≥ 1 equal nonzero entries,
Jain's fairness index as computed by the metrics engine equals exactly
1. -/
theorem C5_jain_equal_one (N : ℕ) (x : ℚ) (hN : 1 ≤ N) (hx : x ≠ 0) :
    jain (List.replicate N x) = 1 := by
  have hNpos : 0 < N := hN
  have hne : List.replicate N x ≠ [] := by
    simp [List.replicate_eq_nil_iff]
    omega
  have hsum : (List.replicate N x).sum = (N : ℚ) * x := by
    simp [List.sum_replicate, nsmul_eq_mul]
  have hs2 : ((List.replicate N x).map (fun y => y * y)).sum
      = (N : ℚ) * (x * x) := by
    rw [List.map_replicate]
    simp [List.sum_replicate, nsmul_eq_mul]
  have hx2 : 0 < x * x := mul_self_pos.mpr hx
  have hN0 : (0 : ℚ) < (N : ℚ) := by exact_mod_cast hNpos
  have hs2pos : 0 < ((List.replicate N x).map (fun y => y * y)).sum := by
    rw [hs2]
    positivity
  rw [jain, if_neg hne, if_pos hs2pos, hsum, hs2, List.length_replicate]
  field_simp
  ring

/-- Witness for C5: three equal entries of value 5. -/
theorem C5_jain_equal_one_witness :
    1 ≤ 3 ∧ (5 : ℚ) ≠ 0 ∧ jain (List.replicate 3 (5 : ℚ)) = 1 :=
  ⟨by norm_num, by norm_num, C5_jain_equal_one 3 5 (by norm_num) (by norm_num)⟩

/-! ### Channel capacity accounting (channel.py) -/

/-- One in-flight transmission (channel.py line 31): transmitter identity
(compared with `is` in Python; node names are unique in the simulation)
and end time. -/
structure Transmission where
  tx : String
  endT : ℚ
deriving DecidableEq, Repr

/-- The channel fields touched by occupy/release/_cleanup (channel.py
lines 25-32): max_capacity (1.0), used_capacity and the per-band ledger
of in-flight transmissions. -/
structure ChannelState where
  maxCapacity : ℚ
  usedCapacity : ℚ
  transmissions : List (String × List Transmission)
deriving DecidableEq, Repr

/-- In-place update of one band's ledger, modelling
self.transmissions[band] = f(self.transmissions[band]). -/
def bandUpdate (ts : List (String × List Transmission)) (band : String)
    (f : List Transmission → List Transmission) :
    List (String × List Transmission) :=
  ts.map (fun p => if p.1 = band then (p.1, f p.2) else p)

/-- What one occupy call produced: the channel state afterwards, whether
the transmission was accepted, and whether a drop report to Metrics was
attempted. -/
structure OccupyResult where
  chan : ChannelState
  accepted : Bool
  dropRecorded : Bool
deriving DecidableEq, Repr

/-- occupy (channel.py lines 46-58).  txHasMetricsAttr is the
hasattr(tx_cell, "metrics") test on line 51: the runner attaches the
Metrics object to the base stations only (runner.py lines 59-60), never
to a Cell, so for every simulation transmitter the test is False and
the guarded record_drop call — a method the Metrics class does not even
define — is never made. -/
def occupy (c : ChannelState) (band : String) (now : ℚ) (txName : String)
    (txHasMetricsAttr : Bool) (duration : ℚ) : OccupyResult :=
  if c.maxCapacity < c.usedCapacity + duration then
    ⟨c, false, txHasMetricsAttr⟩
  else
    ⟨{ c with
        usedCapacity := c.usedCapacity + duration,
        transmissions := bandUpdate c.transmissions band
          (fun l => l ++ [⟨txName, now + duration⟩]) },
      true, false⟩

/-- release (channel.py lines 60-61): drop this transmitter's entries
from the band; used_capacity is not touched. -/
def release (c : ChannelState) (band txName : String) : ChannelState :=
  { c with
    transmissions := bandUpdate c.transmissions band
      (fun l => l.filter (fun t => t.tx ≠ txName)) }

/-- _cleanup (channel.py lines 34-36): prune entries whose end time has
passed; used_capacity is not touched. -/
def cleanup (c : ChannelState) (band : String) (now : ℚ) : ChannelState :=
  { c with
    transmissions := bandUpdate c.transmissions band
      (fun l => l.filter (fun t => now < t.endT)) }

/-- The operations that touch the channel ledger during a run. -/
inductive ChanOp where
  | occ (band : String) (now : ℚ) (txName : String) (hasMetricsAttr : Bool)
      (duration : ℚ)
  | rel (band txName : String)
  | clean (band : String) (now : ℚ)

/-- Apply one channel operation. -/
def chanStep (c : ChannelState) : ChanOp → ChannelState
  | .occ band now tx hm dur => (occupy c band now tx hm dur).chan
  | .rel band tx => release c band tx
  | .clean band now => cleanup c band now

/-- The duration requested by an operation (0 for release and cleanup). -/
def opDuration : ChanOp → ℚ
  | .occ _ _ _ _ dur => dur
  | .rel _ _ => 0
  | .clean _ _ => 0

theorem chanStep_used_mono (c : ChannelState) (op : ChanOp)
    (h : 0 ≤ opDuration op) :
    c.usedCapacity ≤ (chanStep c op).usedCapacity := by
  cases op with
  | occ band now tx hm dur =>
      simp only [opDuration] at h
      simp only [chanStep, occupy]
      split_ifs
      · exact le_refl _
      · simp only
        linarith
  | rel band tx => exact le_refl _
  | clean band now => exact le_refl _

/-- Claim C9: used_capacity is monotonically non-decreasing — every
accepted occupy adds its duration, and neither release nor pruning nor
the passage of time decreases it — and once it has reached max_capacity
every subsequent occupy with positive duration (every packet duration
in the simulation is positive) is dropped on any band, leaving the
channel state unchanged. -/
theorem C9_capacity_monotone (c : ChannelState) (ops : List ChanOp)
    (hd : ∀ op ∈ ops, 0 ≤ opDuration op) :
    c.usedCapacity ≤ (ops.foldl chanStep c).usedCapacity ∧
    (c.maxCapacity ≤ c.usedCapacity →
      ∀ band now tx hm dur, 0 < dur →
        (occupy c band now tx hm dur).accepted = false ∧
        (occupy c band now tx hm dur).chan = c) := by
  constructor
  · induction ops generalizing c with
    | nil => exact le_refl _
    | cons op rest ih =>
        have h1 := chanStep_used_mono c op (hd op (List.mem_cons_self op rest))
        have h2 := ih (chanStep c op)
          (fun o ho => hd o (List.mem_cons_of_mem op ho))
        simpa using le_trans h1 h2
  · intro hfull band now tx hm dur hdur
    have hover : c.maxCapacity < c.usedCapacity + dur := by linarith
    constructor <;> simp [occupy, hover]

/-- Witness for C9: a saturated channel (used = max = 1); a pruning pass
and a release never lower used_capacity, and an occupy of duration 1/2
is rejected without changing the state. -/
theorem C9_capacity_monotone_witness :
    (ChannelState.mk 1 1 [("6GHz", [])]).usedCapacity ≤
      (List.foldl chanStep (ChannelState.mk 1 1 [("6GHz", [])])
        [ChanOp.clean "6GHz" 2, ChanOp.rel "6GHz" "WiFi-1"]).usedCapacity ∧
    ((ChannelState.mk 1 1 [("6GHz", [])]).maxCapacity ≤
        (ChannelState.mk 1 1 [("6GHz", [])]).usedCapacity →
      ∀ band now tx hm dur, 0 < dur →
        (occupy (ChannelState.mk 1 1 [("6GHz", [])]) band now tx hm
            dur).accepted = false ∧
        (occupy (ChannelState.mk 1 1 [("6GHz", [])]) band now tx hm
            dur).chan = ChannelState.mk 1 1 [("6GHz", [])]) :=
  C9_capacity_monotone (ChannelState.mk 1 1 [("6GHz", [])])
    [ChanOp.clean "6GHz" 2, ChanOp.rel "6GHz" "WiFi-1"]
    (by
      intro op hop
      rcases List.mem_cons.mp hop with h | h
      · subst h; norm_num [opDuration]
      · rcases List.mem_singleton.mp h with rfl
        norm_num [opDuration])

/-! ### Node-side bookkeeping of one transmission cycle (cell.py) -/

/-- The node fields updated by the transmission branch of Cell.run. -/
structure CellBook where
  queue : List ℚ
  tx_count : ℕ
  my_delays : List ℚ
deriving DecidableEq, Repr

/-- What the transmission branch did to the node. -/
structure TxOutcome where
  book : CellBook
  delayRecorded : Bool
  successRecorded : Bool
  lossRecorded : Bool
deriving DecidableEq, Repr

/-- The bookkeeping of the transmission branch of Cell.run (cell.py lines
386-414), which runs unconditionally after the occupy call: pop the
oldest queued packet, record its delay, increment tx_count, then record
a success or a loss according to the SINR check.  occupy returns
nothing, so none of this is conditioned on whether the occupy was
accepted or dropped.  The branch itself is guarded by a non-empty queue
(line 379); with an empty queue it is not entered. -/
def txBranch (now : ℚ) (canReceive : Bool) (b : CellBook) : TxOutcome :=
  match b.queue with
  | [] => ⟨b, false, false, false⟩
  | t :: rest =>
      ⟨⟨rest, b.tx_count + 1, b.my_delays ++ [now - t]⟩,
        true, canReceive, !canReceive⟩

/-- Claim C3 (as stated) is false on the code: with the channel already
at capacity (used = max = 1), an occupy of duration 1/2 from a
simulation Cell (which has no metrics attribute) is dropped, but no
drop is reported to Metrics, and the node does not proceed as if it
never transmitted: it still pops its queued packet and records a delay
and a success. -/
theorem C3_counterexample :
    (occupy (ChannelState.mk 1 1 [("6GHz", [])]) "6GHz" 2 "WiFi-1" false
        (1 / 2)).accepted = false ∧
    (occupy (ChannelState.mk 1 1 [("6GHz", [])]) "6GHz" 2 "WiFi-1" false
        (1 / 2)).dropRecorded = false ∧
    (txBranch 2 true ⟨[1], 0, []⟩).book.queue ≠ [1] ∧
    (txBranch 2 true ⟨[1], 0, []⟩).book.tx_count = 1 ∧
    (txBranch 2 true ⟨[1], 0, []⟩).successRecorded = true := by
  have hover : (ChannelState.mk 1 1 [("6GHz", [])]).maxCapacity <
      (ChannelState.mk 1 1 [("6GHz", [])]).usedCapacity + 1 / 2 := by
    norm_num
  refine ⟨by simp [occupy, hover], by simp [occupy, hover], ?_, rfl, rfl⟩
  simp [txBranch]

/-- Claim C3 (amended): when occupy is requested while used capacity plus
duration would exceed the capacity limit, the transmission is dropped
with the channel state unchanged; NO drop record reaches Metrics (every
simulation Cell lacks a metrics attribute, and Metrics defines no
record_drop method, so the guarded call is dead code); and the node
does NOT proceed as if it never transmitted: its bookkeeping is the
same as in the accepted case — it pops its queue, records the packet
delay, increments tx_count and records a success or loss. -/
theorem C3_drop_behavior (c : ChannelState) (band : String) (now : ℚ)
    (tx : String) (dur : ℚ) (t : ℚ) (rest : List ℚ) (n : ℕ) (ds : List ℚ)
    (canReceive : Bool)
    (hover : c.maxCapacity < c.usedCapacity + dur) :
    (occupy c band now tx false dur).chan = c ∧
    (occupy c band now tx false dur).accepted = false ∧
    (occupy c band now tx false dur).dropRecorded = false ∧
    txBranch now canReceive ⟨t :: rest, n, ds⟩ =
      ⟨⟨rest, n + 1, ds ++ [now - t]⟩, true, canReceive, !canReceive⟩ := by
  refine ⟨?_, ?_, ?_, rfl⟩ <;> simp [occupy, hover]

/-- Witness for C3 (amended) on the counterexample configuration. -/
theorem C3_drop_behavior_witness :
    (occupy (ChannelState.mk 1 1 [("6GHz", [])]) "6GHz" 2 "WiFi-1" false
        (1 / 2)).chan = ChannelState.mk 1 1 [("6GHz", [])] ∧
    (occupy (ChannelState.mk 1 1 [("6GHz", [])]) "6GHz" 2 "WiFi-1" false
        (1 / 2)).accepted = false ∧
    (occupy (ChannelState.mk 1 1 [("6GHz", [])]) "6GHz" 2 "WiFi-1" false
        (1 / 2)).dropRecorded = false ∧
    txBranch 2 true ⟨[1], 0, []⟩ =
      ⟨⟨[], 1, [] ++ [2 - 1]⟩, true, true, !true⟩ :=
  C3_drop_behavior (ChannelState.mk 1 1 [("6GHz", [])]) "6GHz" 2 "WiFi-1"
    (1 / 2) 1 [] 0 [] true (by norm_num)

/-! ### Cell construction (cell.py lines 12-94) -/

/-- The per-access-category configuration chosen by the EDCA dispatch of
Cell.__init__ (cell.py lines 34-62). -/
structure EdcaCfg where
  ac : AC
  cw_min : ℤ
  cw_max : ℤ
  aifs_slots : ℤ
  txop_limit : ℚ
deriving DecidableEq, Repr

/-- The node state assembled by Cell.__init__ that could conceivably
depend on the disputed constructor parameters (cell.py lines 33-86). -/
structure CellInitState where
  cfg : EdcaCfg
  cw : ℤ
  T_min : ℚ
  T_max : ℚ
  T_dynamic : ℚ
  alpha_gap : ℚ
  dec_factor : ℚ
  inc_step : ℚ
  phy_rate_bps : ℚ
deriving DecidableEq, Repr

/-- Cell.__init__ (cell.py lines 12-86), restricted to the fields above.
The constructor parameters cw_min and cw_max (line 13, defaults 16 and
1024) are received but never read: every branch of the EDCA dispatch
overwrites self.cw_min and self.cw_max with class constants, and the
initial draw of cw (line 65) uses the overwritten values.  randCw
models random.randint applied to the bounds in scope, randT the value
drawn by random.uniform(2, 5); equal random-number state means equal
draws. -/
def cellInit (tech : Tech) (priority_weight : ℚ) (cw_min cw_max : ℤ)
    (randCw : ℤ → ℤ → ℤ) (randT : ℚ) (phy_rate_bps : Option ℚ) :
    CellInitState :=
  let cfg : EdcaCfg :=
    match tech with
    | .WiFi =>
        if priority_weight ≥ 3 / 2 then ⟨.AC_VO, 3, 7, 2, 1 / 500⟩
        else ⟨.AC_BE, 15, 1023, 6, 1 / 500⟩
    | .NRU =>
        if priority_weight ≥ 3 / 2 then ⟨.NRU_High, 7, 63, 1, 1 / 1000⟩
        else ⟨.NRU_Low, 15, 127, 1, 1 / 500⟩
  { cfg := cfg,
    cw := randCw cfg.cw_min cfg.cw_max,
    T_min := 2,
    T_max := 8,
    T_dynamic := randT,
    alpha_gap := if tech = .NRU then 9 / 10 else 4 / 5,
    dec_factor := if tech = .NRU then 4 / 5 else 2 / 5,
    inc_step := if tech = .NRU then 1 / 5 else 3 / 5,
    phy_rate_bps :=
      match phy_rate_bps with
      | none => if tech = .WiFi then 54000000 else 100000000
      | some r => r }

/-- Claim C10: the cw_min and cw_max parameters of the Cell constructor
have no effect on the constructed node: for any two values of these
parameters, all other inputs and the random draws equal, the resulting
node state is identical, because the CW bounds are always overwritten
by the EDCA dispatch before first use. -/
theorem C10_cw_params_unused (tech : Tech) (pw : ℚ) (a b a2 b2 : ℤ)
    (randCw : ℤ → ℤ → ℤ) (randT : ℚ) (pr : Option ℚ) :
    cellInit tech pw a b randCw randT pr =
      cellInit tech pw a2 b2 randCw randT pr := rfl

end Sim
